import Mathlib

/-!
Verification of the WiredTiger Rust wrapper (TylerBrock/wiredtiger-rust)
against its natural-language specification.

Shallow embedding notes.  The wrapper is an error-translation and
resource-lifecycle layer over a C API.  Native entry points return a signed
32-bit status (0 = success).  We embed statuses as `Int`.  The engine's
code-to-string facility `wiredtiger_strerror` is an external collaborator,
so definitions that call it are parameterized by a function
`strerror : Int → String`.  Each wrapper function is translated from the
Rust source (`crates/wiredtiger/src/raw_api.rs`, `crates/wiredtiger/src/lib.rs`,
`crates/wiredtiger/src/config.rs`, `src/lib.rs`), with native out-parameters
and native-call results appearing as explicit inputs.
-/

namespace WiredTiger

/-- The engine's code-to-string facility (`wiredtiger_strerror`), an external
collaborator of the wrapper; kept abstract as a parameter. -/
abbrev Strerror := Int → String

/-- The distinguished "not found" sentinel status `WT_NOTFOUND`.  Its concrete
value (-31803) is the one the crate's own tests match on
(`crates/wiredtiger/src/lib.rs`, `code == -31803`). -/
def WT_NOTFOUND : Int := -31803

/-- `raw_api.rs`: `pub struct Error { message: String }` — the error value
produced by every fallible wrapper operation.  Note it has a single field. -/
structure Error where
  message : String
deriving Repr, DecidableEq

/-- `raw_api.rs`: `error_message(result) = wiredtiger_strerror(result)`
(decoded from the returned C string). -/
def error_message (strerror : Strerror) (result : Int) : String :=
  strerror result

/-- `raw_api.rs`: `Error::from_code(code)` builds
`Error { message: error_message(code) }`. -/
def Error.from_code (strerror : Strerror) (code : Int) : Error :=
  { message := error_message strerror code }

/-- The wrapper's `Result<T>` type: `std::result::Result<T, Error>`. -/
inductive WtResult (α : Type) where
  | ok (val : α)
  | err (e : Error)
deriving Repr, DecidableEq

/-- Whether a `WtResult` is the error arm. -/
def WtResult.isErr {α : Type} : WtResult α → Bool
  | .ok _ => false
  | .err _ => true

/-- `raw_api.rs`: the `make_result!` macro — `Ok(ok)` when the status is 0,
otherwise `Err(Error { message: error_message(err_code) })`. -/
def makeResult {α : Type} (strerror : Strerror) (err_code : Int) (ok : α) :
    WtResult α :=
  if err_code = 0 then .ok ok
  else .err { message := error_message strerror err_code }

/-- `raw_api.rs`: `pub enum CompareStatus { LessThan, Equal, GreaterThan }`. -/
inductive CompareStatus where
  | LessThan
  | Equal
  | GreaterThan
deriving Repr, DecidableEq

/-- `raw_api.rs`: `CompareStatus::from_code` — the match
`x if x < 0 => LessThan, 0 => Equal, _ => GreaterThan`. -/
def CompareStatus.from_code (code : Int) : CompareStatus :=
  if code < 0 then .LessThan
  else if code = 0 then .Equal
  else .GreaterThan

/-- The native cursor method table: one entry point per operation.  The
wrapper reads a function pointer out of the table and calls it; we record an
entry point by name, and the table assigns to each entry point the status it
returns when invoked. -/
inductive CursorEntry where
  | insert
  | update
  | remove
  | next
  | prev
  | reset
  | search
  | search_near
deriving Repr, DecidableEq

namespace RawCursor

/-- `raw_api.rs` `RawCursor::insert`: calls `(*self.cursor).insert` and wraps
the status with `make_result!`.  Returns the translated result together with
the list of native entry points invoked. -/
def insert (strerror : Strerror) (tbl : CursorEntry → Int) :
    WtResult Unit × List CursorEntry :=
  (makeResult strerror (tbl .insert) (), [.insert])

/-- `raw_api.rs` `RawCursor::update` (identical in `src/lib.rs`
`Cursor::update`): the body calls `(*self.cursor).insert` — the native
*insert* entry point — and wraps the status with `make_result!`. -/
def update (strerror : Strerror) (tbl : CursorEntry → Int) :
    WtResult Unit × List CursorEntry :=
  (makeResult strerror (tbl .insert) (), [.insert])

/-- `raw_api.rs` `RawCursor::remove`: calls `(*self.cursor).remove`. -/
def remove (strerror : Strerror) (tbl : CursorEntry → Int) :
    WtResult Unit × List CursorEntry :=
  (makeResult strerror (tbl .remove) (), [.remove])

/-- `raw_api.rs` `RawCursor::search_near`: calls `(*self.cursor).search_near`
with an `i32` out-parameter `comparep` and wraps the status with
`make_result!`, classifying `comparep` via `CompareStatus::from_code`.
`err_code` is the status the native call returned and `comparep` the value it
stored in the out-parameter. -/
def search_near (strerror : Strerror) (err_code : Int) (comparep : Int) :
    WtResult CompareStatus :=
  makeResult strerror err_code (CompareStatus.from_code comparep)

/-- `raw_api.rs` `RawCursor::compare`: same translation shape as
`search_near` — `make_result!` on the status, `CompareStatus::from_code` on
the `i32` out-parameter. -/
def compare (strerror : Strerror) (err_code : Int) (comparep : Int) :
    WtResult CompareStatus :=
  makeResult strerror err_code (CompareStatus.from_code comparep)

/-- `raw_api.rs` `RawCursor::search`: sets the key (no status), calls the
native `search` entry point; `WT_NOTFOUND` yields `Ok(None)`, any other
nonzero status yields `Err(Error::from_code(status))`; otherwise `get_value`
is called, a nonzero status yields `Err(Error::from_code(status))`, and on
success the copied-out value is returned as `Ok(Some(val))`.
`err_code` is the native search status, `get_value_code` the native
`get_value` status, `val` the decoded value bytes. -/
def search (strerror : Strerror) (err_code : Int) (get_value_code : Int)
    (val : String) : WtResult (Option String) :=
  if err_code = WT_NOTFOUND then .ok none
  else if err_code ≠ 0 then .err (Error.from_code strerror err_code)
  else if get_value_code ≠ 0 then .err (Error.from_code strerror get_value_code)
  else .ok (some val)

end RawCursor

end WiredTiger

namespace WiredTiger

/-- Claim C9: the classification of the native comparison out-parameter
(`CompareStatus::from_code`) is total over all integers (in particular all
32-bit ones): every negative value maps to `LessThan`, zero to `Equal`, and
every positive value to `GreaterThan`; being a total Lean function, it has no
panic or error branch. -/
theorem compare_status_from_code_total (c : Int) :
    (c < 0 → CompareStatus.from_code c = .LessThan)
    ∧ (c = 0 → CompareStatus.from_code c = .Equal)
    ∧ (0 < c → CompareStatus.from_code c = .GreaterThan) := by
  refine ⟨fun h => ?_, fun h => ?_, fun h => ?_⟩
  · simp [CompareStatus.from_code, h]
  · simp [CompareStatus.from_code, h]
  · have h1 : ¬ c < 0 := by omega
    have h2 : ¬ c = 0 := by omega
    simp [CompareStatus.from_code, h1, h2]

/-- Witness for C9: the three branches at the concrete inputs -5, 0, 7. -/
theorem compare_status_from_code_total_witness :
    CompareStatus.from_code (-5) = .LessThan
    ∧ CompareStatus.from_code 0 = .Equal
    ∧ CompareStatus.from_code 7 = .GreaterThan :=
  ⟨(compare_status_from_code_total (-5)).1 (by decide),
   (compare_status_from_code_total 0).2.1 rfl,
   (compare_status_from_code_total 7).2.2 (by decide)⟩

/-- Claim C7: a raw handle operation (every one of which wraps its native
status with `make_result!`) returns `Ok` exactly when the status code is 0,
and for every nonzero status it returns an `Err` whose message is exactly the
engine's own code-to-string output for that code — never a fabricated
message.  For the search operation, which handles the not-found sentinel
separately, every nonzero status other than the sentinel likewise produces an
`Err` carrying exactly the engine's message for that status. -/
theorem make_result_ok_iff_zero {α : Type} (strerror : Strerror) (code : Int)
    (v : α) (get_value_code : Int) (val : String) :
    (makeResult strerror code v = .ok v ↔ code = 0)
    ∧ (code ≠ 0 → makeResult strerror code v = .err { message := strerror code })
    ∧ (code ≠ 0 → code ≠ WT_NOTFOUND →
        RawCursor.search strerror code get_value_code val =
          .err { message := strerror code }) := by
  refine ⟨⟨fun h => ?_, fun h => ?_⟩, fun h => ?_, fun h hnf => ?_⟩
  · by_contra hc
    simp [makeResult, hc] at h
  · simp [makeResult, h]
  · simp [makeResult, h, error_message]
  · simp [RawCursor.search, hnf, h, Error.from_code, error_message]

/-- Witness for C7: concrete evaluations — status 0 gives `Ok`, status 22
(`EINVAL`) gives the engine's message for 22, and a search returning status
22 (≠ sentinel) gives the same translated error. -/
theorem make_result_ok_iff_zero_witness :
    makeResult (fun c => toString c) 0 () = .ok ()
    ∧ makeResult (fun c => toString c) 22 () = .err { message := "22" }
    ∧ RawCursor.search (fun c => toString c) 22 0 "" =
        .err { message := "22" } :=
  ⟨(make_result_ok_iff_zero (fun c => toString c) 0 () 0 "").1.mpr rfl,
   (make_result_ok_iff_zero (fun c => toString c) 22 () 0 "").2.1 (by decide),
   (make_result_ok_iff_zero (fun c => toString c) 22 () 0 "").2.2
     (by decide) (by decide)⟩

/-- Counterexample for C1: the claim, as stated, says *every* search-style
cursor operation maps the not-found sentinel to a successful empty result and
never surfaces it through the error arm.  But `RawCursor::search_near` wraps
its status with `make_result!`, so when the native layer returns
`WT_NOTFOUND` it returns the error arm carrying the sentinel's translated
message. -/
theorem search_near_notfound_is_err :
    RawCursor.search_near (fun c => toString c) WT_NOTFOUND 0 =
      .err { message := "-31803" } := by
  decide

/-- Claim C1 (amended): `RawCursor::search` maps the not-found sentinel to
`Ok(None)` — never to the error arm — whatever the engine's message table,
the `get_value` status and the value bytes are. -/
theorem search_notfound_is_ok_none (strerror : Strerror)
    (get_value_code : Int) (val : String) :
    RawCursor.search strerror WT_NOTFOUND get_value_code val = .ok none := by
  simp [RawCursor.search]

/-- Claim C3: the claim says the `Error` value carries both the numeric
status code and the message, so callers can pattern-match on the code.  The
`Error` defined in `raw_api.rs` (and `src/lib.rs`) carries only the message:
two different status codes whose engine renderings coincide produce literally
equal `Error` values, so no caller can recover the numeric code from the
value.  (The crate's own tests destructure `Error { code, .. }`, so the
claim reflects the intended, tested interface; the `Error` in the sources is
the divergent part.) -/
theorem error_carries_only_message (strerror : Strerror) (c₁ c₂ : Int)
    (h : strerror c₁ = strerror c₂) :
    Error.from_code strerror c₁ = Error.from_code strerror c₂ := by
  simp [Error.from_code, error_message, h]

/-- Witness for C3: with a message table rendering both 22 (`EINVAL`) and
-31803 (`WT_NOTFOUND`) to the same text, the two produced `Error` values are
equal — the status code 22 vs -31803 is not recoverable. -/
theorem error_carries_only_message_witness :
    (fun _ : Int => "Invalid argument") 22 =
      (fun _ : Int => "Invalid argument") (-31803)
    ∧ Error.from_code (fun _ => "Invalid argument") 22 =
        Error.from_code (fun _ => "Invalid argument") (-31803) :=
  ⟨rfl, error_carries_only_message (fun _ => "Invalid argument") 22 (-31803) rfl⟩

/-- A native cursor method table on which the insert entry point fails with
status -31800 while every other entry point (in particular update) succeeds
with status 0. -/
def updateProbeTable : CursorEntry → Int :=
  fun e => match e with
    | .insert => -31800
    | _ => 0

/-- Claim C4: evaluated on `updateProbeTable` — whose native update entry
point would return 0 — `RawCursor::update` invokes the native *insert* entry
point and returns insert's failing status -31800, translated through the
engine's message table.  So `update` is not a delegation to the native update
entry point. -/
theorem update_invokes_insert_entry :
    RawCursor.update (fun c => toString c) updateProbeTable =
      (.err { message := "-31800" }, [CursorEntry.insert])
    ∧ updateProbeTable CursorEntry.update = 0 := by
  constructor
  · decide
  · rfl

/-- `crates/wiredtiger/src/lib.rs`: the `Session` safe wrapper.  Its native
handle is abstracted to an identifier `sid`; `txnActive` is the engine-side
fact of whether a transaction is running on this session (the state the
spec's "at most one live Transaction per Session" is about). -/
structure Session where
  sid : Nat
  txnActive : Bool
deriving Repr, DecidableEq

/-- `crates/wiredtiger/src/lib.rs`:
`struct Transaction { session: &Session, finished: bool }`.
The borrowed session is abstracted to its identifier. -/
structure Transaction where
  session : Nat
  finished : Bool
deriving Repr, DecidableEq

/-- Modelled from the spec: `RawSession::begin_transaction`.  The copy of
`raw_api.rs` in the sources is a stale draft whose transaction entry points
(`begin_transaction`, `commit_transaction`, `rollback_transaction`) are
unimplemented `todo!()` stubs, while the safe wrapper
(`crates/wiredtiger/src/lib.rs`) delegates to — and its tests exercise — a
working raw layer that is not in the sources.  Per the spec, beginning a
transaction "fails if a transaction is already active on this session";
otherwise it begins one and succeeds. -/
def RawSession.begin_transaction (strerror : Strerror) (s : Session) :
    WtResult Unit × Session :=
  if s.txnActive then (.err (Error.from_code strerror 22), s)
  else (.ok (), { s with txnActive := true })

/-- `crates/wiredtiger/src/lib.rs` `Session::transaction(config)`:
`self.begin_transaction(config)?;
 Ok(Transaction { session: &self, finished: false })`. -/
def Session.transaction (strerror : Strerror) (s : Session) :
    WtResult Transaction × Session :=
  match RawSession.begin_transaction strerror s with
  | (.err e, s₁) => (.err e, s₁)
  | (.ok _, s₁) => (.ok { session := s.sid, finished := false }, s₁)

/-- Claim C5: `Session::transaction(config)` begins a transaction and returns
a `Transaction` bound to that session (carrying the session's identity, with
`finished = false`), and returns an error whenever a transaction is already
active on the same session. -/
theorem session_transaction_spec (strerror : Strerror) (s : Session) :
    (s.txnActive = false →
      Session.transaction strerror s =
        (.ok { session := s.sid, finished := false },
         { s with txnActive := true }))
    ∧ (s.txnActive = true →
        (Session.transaction strerror s).1.isErr = true) := by
  constructor
  · intro h
    simp [Session.transaction, RawSession.begin_transaction, h]
  · intro h
    simp [Session.transaction, RawSession.begin_transaction, h, WtResult.isErr]

/-- Witness for C5: on a session with no active transaction, `transaction`
returns a bound `Transaction`; on the same session with a transaction already
active, it returns an error. -/
theorem session_transaction_spec_witness :
    Session.transaction (fun c => toString c) { sid := 3, txnActive := false } =
      (.ok { session := 3, finished := false }, { sid := 3, txnActive := true })
    ∧ (Session.transaction (fun c => toString c)
        { sid := 3, txnActive := true }).1.isErr = true :=
  ⟨(session_transaction_spec (fun c => toString c)
      { sid := 3, txnActive := false }).1 rfl,
   (session_transaction_spec (fun c => toString c)
      { sid := 3, txnActive := true }).2 rfl⟩

/-- The native session-level transaction entry points the `Transaction`
wrapper can delegate to.  `commit_transaction` and `rollback_transaction`
are the two finalize calls; `prepare_transaction` is not a finalize. -/
inductive NativeTxnOp where
  | commit_transaction
  | rollback_transaction
  | prepare_transaction
deriving Repr, DecidableEq

/-- Which native transaction entry points finalize the transaction. -/
def NativeTxnOp.isFinalize : NativeTxnOp → Bool
  | .commit_transaction => true
  | .rollback_transaction => true
  | .prepare_transaction => false

/-- A call made on a `Transaction` value during its lifetime.  The
`WtResult Unit` argument of the explicit calls is the result the delegated
native session-level operation returns.  `discard` is the value going out of
scope. -/
inductive TxnCall where
  | commit (r : WtResult Unit)
  | rollback (r : WtResult Unit)
  | prepare (r : WtResult Unit)
  | discard
deriving Repr, DecidableEq

/-- Which `Transaction` calls are the explicit commit/rollback calls. -/
def TxnCall.isExplicitFinalize : TxnCall → Bool
  | .commit _ => true
  | .rollback _ => true
  | .prepare _ => false
  | .discard => false

/-- `crates/wiredtiger/src/lib.rs`, the `Transaction` impl, one call:
  - `commit`: `self.session.commit_transaction(config)?;
     self.finished = true; Ok(())` — the native commit is issued
     unconditionally (the `finished` field is never read), and `finished` is
     set only when it succeeds;
  - `rollback`: same shape over `rollback_transaction`;
  - `prepare`: `self.session.prepare_transaction(config)` — no state change;
  - `discard`: `Transaction` has no `Drop` impl, so going out of scope runs
    no code and issues no native call.
Returns the call's result, the updated wrapper state, and the native
transaction entry points invoked. -/
def Transaction.step (t : Transaction) :
    TxnCall → WtResult Unit × Transaction × List NativeTxnOp
  | .commit r =>
    (match r with
     | .err e => (.err e, t, [.commit_transaction])
     | .ok _ => (.ok (), { t with finished := true }, [.commit_transaction]))
  | .rollback r =>
    (match r with
     | .err e => (.err e, t, [.rollback_transaction])
     | .ok _ => (.ok (), { t with finished := true }, [.rollback_transaction]))
  | .prepare r => (r, t, [.prepare_transaction])
  | .discard => (.ok (), t, [])

/-- A whole lifetime of a `Transaction`: the sequence of calls made on it,
with the native entry points they invoke, concatenated. -/
def Transaction.run (t : Transaction) :
    List TxnCall → Transaction × List NativeTxnOp
  | [] => (t, [])
  | c :: cs =>
    match Transaction.step t c with
    | (_, t₁, ops) =>
      match Transaction.run t₁ cs with
      | (t₂, rest) => (t₂, ops ++ rest)

/-- Counterexample for C2: a lifetime in which commit succeeds and rollback
is then called (both native calls succeeding) issues two native finalize
calls, not at most one: the `finished` flag is set by the successful commit
but never consulted, so the subsequent rollback still delegates to the native
`rollback_transaction`. -/
theorem commit_then_rollback_two_finalizes :
    (Transaction.step { session := 0, finished := false }
        (TxnCall.commit (.ok ()))).1 = .ok ()
    ∧ ((Transaction.run { session := 0, finished := false }
          [TxnCall.commit (.ok ()), TxnCall.rollback (.ok ())]).2.filter
            NativeTxnOp.isFinalize).length = 2 := by
  decide

/-- Claim C2 (amended): over any lifetime, the number of native finalize
calls issued equals the number of explicit commit/rollback calls made on the
`Transaction`.  In particular a `Transaction` that is discarded without ever
being committed or rolled back issues no native finalize call at all
(`Transaction` has no destructor), and `prepare` and destruction never
finalize; but the `finished` flag, though set on success, is never consulted,
so nothing skips the native finalize of a repeated explicit call. -/
theorem finalize_calls_count_explicit_calls (t : Transaction)
    (calls : List TxnCall) :
    ((Transaction.run t calls).2.filter NativeTxnOp.isFinalize).length =
      (calls.filter TxnCall.isExplicitFinalize).length := by
  induction calls generalizing t with
  | nil => simp [Transaction.run]
  | cons c cs ih =>
    cases c with
    | commit r =>
      cases r with
      | ok v =>
        simp [Transaction.run, Transaction.step, TxnCall.isExplicitFinalize,
          NativeTxnOp.isFinalize, ih]
      | err e =>
        simp [Transaction.run, Transaction.step, TxnCall.isExplicitFinalize,
          NativeTxnOp.isFinalize, ih]
    | rollback r =>
      cases r with
      | ok v =>
        simp [Transaction.run, Transaction.step, TxnCall.isExplicitFinalize,
          NativeTxnOp.isFinalize, ih]
      | err e =>
        simp [Transaction.run, Transaction.step, TxnCall.isExplicitFinalize,
          NativeTxnOp.isFinalize, ih]
    | prepare r =>
      simp [Transaction.run, Transaction.step, TxnCall.isExplicitFinalize,
        NativeTxnOp.isFinalize, ih]
    | discard =>
      simp [Transaction.run, Transaction.step, TxnCall.isExplicitFinalize,
        NativeTxnOp.isFinalize, ih]

/-- Claim C6: when the session-level commit fails, `Transaction::commit`
propagates that error verbatim and leaves the transaction state unchanged —
in particular the `finished` flag stays as it was (false for an active
transaction), so the caller may retry or roll back; when it succeeds, the
transaction transitions to finished. -/
theorem commit_error_keeps_state (t : Transaction) (e : Error) :
    Transaction.step t (.commit (.err e)) = (.err e, t, [.commit_transaction])
    ∧ Transaction.step t (.commit (.ok ())) =
        (.ok (), { t with finished := true }, [.commit_transaction]) := by
  constructor <;> rfl

/-- `config.rs` `enum DirectIOSetting`. -/
inductive DirectIOSetting where
  | Checkpoint
  | Data
  | Log
deriving Repr, DecidableEq

/-- `config.rs` `enum FileExtensionConfigOption`. -/
inductive FileExtensionConfigOption where
  | Data
  | Log
deriving Repr, DecidableEq

/-- `config.rs` `enum StatisticsOption`. -/
inductive StatisticsOption where
  | All
  | Fast
  | None
  | Clear
deriving Repr, DecidableEq

/-- `config.rs` `enum SyncMethodOption`. -/
inductive SyncMethodOption where
  | DSync
  | FSync
  | None
deriving Repr, DecidableEq

/-- `config.rs` `enum VerboseOption`. -/
inductive VerboseOption where
  | Api
  | Block
  | Checkpoint
  | Compact
  | Evict
  | EvictServer
  | FileOps
  | Log
  | Lsm
  | Metadata
  | Mutex
  | Overflow
  | Read
  | Reconcile
  | Recovery
  | Salvage
  | SharedCache
  | Split
  | Temporary
  | Transaction
  | Verify
  | Version
  | Write
deriving Repr, DecidableEq

/-- `config.rs` `struct CheckpointConfig`. -/
structure CheckpointConfig where
  log_size : Int
  name : String
  wait : Int
deriving Repr, DecidableEq

/-- `config.rs` `struct EvictionConfig`. -/
structure EvictionConfig where
  threads_max : Nat
  threads_min : Nat
deriving Repr, DecidableEq

/-- `config.rs` `struct LogConfig`. -/
structure LogConfig where
  archive : Bool
  compressor : String
  enabled : Bool
  file_max : Int
  path : String
  prealloc : Bool
  recover : String
  mmap : Bool
  multiprocess : Bool
  session_max : Nat
deriving Repr, DecidableEq

/-- `config.rs` `struct SharedCacheConfig`. -/
structure SharedCacheConfig where
  chunk : Nat
  name : String
  reserve : Nat
  size : Nat
deriving Repr, DecidableEq

/-- `config.rs` `struct StatisticsLogConfig`. -/
structure StatisticsLogConfig where
  on_close : Bool
  path : String
  sources : List String
  timestamp : String
  wait : Nat
deriving Repr, DecidableEq

/-- `config.rs` `struct TransactionSyncConfig`. -/
structure TransactionSyncConfig where
  enabled : Bool
  method : SyncMethodOption
deriving Repr, DecidableEq

/-- `config.rs` `struct OpenConnectionConfig`: the structured record of
connection-open options (field for field as in the source). -/
structure OpenConnectionConfig where
  buffer_alignment : Int
  cache_overhead : Nat
  cache_size : Nat
  checkpoint : CheckpointConfig
  checkpoint_sync : Bool
  config_base : Bool
  create : Bool
  direct_io : List DirectIOSetting
  error_prefix : String
  eviction : EvictionConfig
  eviction_dirty_target : Int
  eviction_target : Int
  eviction_trigger : Int
  exclusive : Bool
  extensions : List String
  file_extend : List FileExtensionConfigOption
  hazard_max : Int
  log : LogConfig
  shared_cache : SharedCacheConfig
  statistics : List StatisticsOption
  statistics_log : StatisticsLogConfig
  transaction_sync : TransactionSyncConfig
  use_environment_priv : Bool
  verbose : List VerboseOption
deriving Repr, DecidableEq

/-- `config.rs` `OpenConnectionConfig::to_string`:
the body is literally `"".to_string()`. -/
def OpenConnectionConfig.to_string (_c : OpenConnectionConfig) : String :=
  ""

/-- An `OpenConnectionConfig` holding every field at its documented default
value, except that `create` is set as given. -/
def defaultOpenConfig (create : Bool) : OpenConnectionConfig where
  buffer_alignment := -1
  cache_overhead := 8
  cache_size := 104857600
  checkpoint := { log_size := 0, name := "WiredTigerCheckpoint", wait := 0 }
  checkpoint_sync := true
  config_base := true
  create := create
  direct_io := []
  error_prefix := ""
  eviction := { threads_max := 1, threads_min := 1 }
  eviction_dirty_target := 80
  eviction_target := 80
  eviction_trigger := 95
  exclusive := false
  extensions := []
  file_extend := []
  hazard_max := 1000
  log := { archive := true, compressor := "none", enabled := false,
           file_max := 104857600, path := "", prealloc := true,
           recover := "on", mmap := true, multiprocess := false,
           session_max := 100 }
  shared_cache := { chunk := 10485760, name := "none", reserve := 0,
                    size := 524288000 }
  statistics := []
  statistics_log := { on_close := false, path := "WiredTigerStat.%d.%H",
                      sources := [], timestamp := "%b %d %H:%M:%S",
                      wait := 0 }
  transaction_sync := { enabled := false, method := .FSync }
  use_environment_priv := false
  verbose := []

/-- Claim C8: evaluated on concrete records, `OpenConnectionConfig::to_string`
returns the empty string for every record — including one whose `create`
field is `true`, which under the claimed grammar would have to serialize a
`create=true` pair — so the serialization does not reflect the record's
field values: two records differing in `create` serialize identically. -/
theorem open_config_to_string_empty :
    OpenConnectionConfig.to_string (defaultOpenConfig true) = ""
    ∧ OpenConnectionConfig.to_string (defaultOpenConfig false) = ""
    ∧ (defaultOpenConfig true).create = true
    ∧ (defaultOpenConfig false).create = false := by
  exact ⟨rfl, rfl, rfl, rfl⟩

/-- UTF-8 continuation byte: in 0x80..=0xBF.  Part of the model of Rust's
`str::from_utf8` (an external standard-library collaborator of
`RawConnection::get_home`). -/
def isCont (b : UInt8) : Bool :=
  0x80 ≤ b.toNat && b.toNat ≤ 0xBF

/-- Admissible second byte of a three-byte UTF-8 sequence led by `n1`
(0xE0 requires 0xA0..=0xBF, 0xED requires 0x80..=0x9F — excluding overlong
encodings and surrogates — otherwise an ordinary continuation byte). -/
def sndByteOk3 (n1 : Nat) (b2 : UInt8) : Bool :=
  if n1 = 0xE0 then 0xA0 ≤ b2.toNat && b2.toNat ≤ 0xBF
  else if n1 = 0xED then 0x80 ≤ b2.toNat && b2.toNat ≤ 0x9F
  else isCont b2

/-- Admissible second byte of a four-byte UTF-8 sequence led by `n1`
(0xF0 requires 0x90..=0xBF, 0xF4 requires 0x80..=0x8F — excluding overlong
encodings and code points beyond U+10FFFF). -/
def sndByteOk4 (n1 : Nat) (b2 : UInt8) : Bool :=
  if n1 = 0xF0 then 0x90 ≤ b2.toNat && b2.toNat ≤ 0xBF
  else if n1 = 0xF4 then 0x80 ≤ b2.toNat && b2.toNat ≤ 0x8F
  else isCont b2

/-- Strict UTF-8 decoding of a byte list, with the validation table of Rust's
`str::from_utf8`; `none` on any invalid sequence.  The `fuel` argument only
provides structural recursion — every decoded character consumes at least one
byte, so any `fuel ≥` the list length never reaches the fuel-exhaustion
branch. -/
def utf8DecodeAux : Nat → List UInt8 → Option (List Char)
  | _, [] => some []
  | 0, _ :: _ => none
  | fuel + 1, b1 :: rest =>
    let n1 := b1.toNat
    if n1 < 0x80 then
      (utf8DecodeAux fuel rest).map (fun cs => Char.ofNat n1 :: cs)
    else if 0xC2 ≤ n1 && n1 ≤ 0xDF then
      match rest with
      | b2 :: rest2 =>
        if isCont b2 then
          (utf8DecodeAux fuel rest2).map
            (fun cs => Char.ofNat ((n1 - 0xC0) * 0x40 + (b2.toNat - 0x80)) :: cs)
        else none
      | [] => none
    else if 0xE0 ≤ n1 && n1 ≤ 0xEF then
      match rest with
      | b2 :: b3 :: rest3 =>
        if sndByteOk3 n1 b2 && isCont b3 then
          (utf8DecodeAux fuel rest3).map
            (fun cs => Char.ofNat ((n1 - 0xE0) * 0x1000
              + (b2.toNat - 0x80) * 0x40 + (b3.toNat - 0x80)) :: cs)
        else none
      | _ => none
    else if 0xF0 ≤ n1 && n1 ≤ 0xF4 then
      match rest with
      | b2 :: b3 :: b4 :: rest4 =>
        if sndByteOk4 n1 b2 && isCont b3 && isCont b4 then
          (utf8DecodeAux fuel rest4).map
            (fun cs => Char.ofNat ((n1 - 0xF0) * 0x40000
              + (b2.toNat - 0x80) * 0x1000 + (b3.toNat - 0x80) * 0x40
              + (b4.toNat - 0x80)) :: cs)
        else none
      | _ => none
    else none

/-- Model of Rust's `str::from_utf8` over the bytes of the C string: the
decoded string when the bytes are valid UTF-8, `none` otherwise. -/
def from_utf8 (bytes : List UInt8) : Option String :=
  (utf8DecodeAux bytes.length bytes).map (fun cs => { data := cs })

/-- The observable outcome of `RawConnection::get_home`: a panic, a
successful home-directory string, or a translated error. -/
inductive GetHomeOutcome where
  | panics
  | ok (home : String)
  | err (e : Error)
deriving Repr, DecidableEq

/-- `raw_api.rs` `RawConnection::get_home` (identical in `src/lib.rs`
`Connection::get_home`): the native `get_home` entry point returns a C-string
pointer, abstracted as `none` (null) or `some bytes` (the pointed-to bytes up
to the terminator).  A null pointer hits the
`panic!("received null from calling get_home on WT_CONNECTION")` arm; a
non-null pointer is decoded with `CStr::to_str`, giving `Ok` of the decoded
string on valid UTF-8 and otherwise `Err` with the message
`format!("Failed to convert C string to Rust string: {}", e)` — the rendering
of the `Utf8Error` `e` is abstracted as `utf8ErrMsg`. -/
def RawConnection.get_home (utf8ErrMsg : List UInt8 → String)
    (home : Option (List UInt8)) : GetHomeOutcome :=
  match home with
  | none => .panics
  | some bytes =>
    match from_utf8 bytes with
    | some s => .ok s
    | none =>
      .err { message :=
        "Failed to convert C string to Rust string: " ++ utf8ErrMsg bytes }

/-- Claim C10: if the native `get_home` entry point returns a null pointer,
`RawConnection::get_home` panics rather than returning an error; for every
non-null pointer it returns `Ok` of the decoded string when the bytes are
valid UTF-8 and an `Err` describing the conversion failure otherwise. -/
theorem get_home_spec (utf8ErrMsg : List UInt8 → String)
    (bytes : List UInt8) :
    RawConnection.get_home utf8ErrMsg none = .panics
    ∧ (∀ s, from_utf8 bytes = some s →
        RawConnection.get_home utf8ErrMsg (some bytes) = .ok s)
    ∧ (from_utf8 bytes = none →
        RawConnection.get_home utf8ErrMsg (some bytes) =
          .err { message := "Failed to convert C string to Rust string: "
                   ++ utf8ErrMsg bytes }) := by
  refine ⟨rfl, fun s hs => ?_, fun hn => ?_⟩
  · simp [RawConnection.get_home, hs]
  · simp [RawConnection.get_home, hn]

/-- Witness for C10: the bytes `[104, 105]` are valid UTF-8 and decode to
"hi", so `get_home` returns `Ok "hi"`; the single byte `[0xFF]` is invalid
UTF-8, so `get_home` returns the conversion-failure error; a null pointer
panics. -/
theorem get_home_spec_witness :
    RawConnection.get_home (fun _ => "u") none = .panics
    ∧ RawConnection.get_home (fun _ => "u") (some [104, 105]) = .ok "hi"
    ∧ RawConnection.get_home (fun _ => "u") (some [0xFF]) =
        .err { message := "Failed to convert C string to Rust string: u" } :=
  ⟨(get_home_spec (fun _ => "u") []).1,
   (get_home_spec (fun _ => "u") [104, 105]).2.1 "hi" (by decide),
   (get_home_spec (fun _ => "u") [0xFF]).2.2 (by decide)⟩

end WiredTiger
